import Mathlib

/-! Shallow embedding of the crawler-with-url backend (FastAPI web-content
extraction service) and proofs about its acquisition and extraction
pipeline.

Sources embedded:
* `app/services/fetcher.py`   — `is_blocked`, `fetch_with_playwright`,
  `fetch_from_archive`, `fetch_html`
* `app/services/extractor.py` — the four extraction strategies and
  `multi_strategy_extract`
* `app/routers/research_routes.py` — the streaming generator,
  `ai_refine` and the synchronous `extract_structured` handler

Calls into external libraries (httpx, Playwright, trafilatura,
newspaper3k, readability, BeautifulSoup element lookup, OpenAI) are
modelled as oracle inputs: a `LibResult` records either the value the
library returned or the exception it raised, and element lookups are
oracle functions from a CSS selector to the text of the first matching
element.  The control flow of the repository over those results is
translated literally.
-/

set_option maxRecDepth 40000

namespace Crawler

/-- Outcome of one call into an external library: the returned value, or
the message of the exception the call raised. -/
inductive LibResult (α : Type) where
  | ok (val : α)
  | exn (msg : String)
deriving DecidableEq

/-! Section: Python string primitives

Python `str` operations used by the source, modelled over the character
list of a Lean `String` (so that they evaluate by kernel reduction).
`str_lower` is the Python `str.lower` restricted to ASCII case mapping,
`str_contains hay pat` is the Python `pat in hay` substring test. -/

/-- Python `str.lower` (ASCII case mapping, applied characterwise). -/
def str_lower (s : String) : String :=
  String.mk (s.data.map Char.toLower)

/-- Substring occurrence test on character lists: does `pat` occur as a
contiguous run inside `l`? -/
def charsHas (pat : List Char) : List Char → Bool
  | [] => pat.isEmpty
  | c :: rest => pat.isPrefixOf (c :: rest) || charsHas pat rest

/-- The Python `pat in hay` substring test. -/
def str_contains (hay pat : String) : Bool :=
  charsHas pat.data hay.data

/-! Section: Blocking Detector — `fetcher.is_blocked` -/

/-- The fixed keyword list of `fetcher.is_blocked` (`block_keywords`). -/
def block_keywords : List String :=
  [ "Access Denied",
    "403 Forbidden",
    "Attention Required",
    "Cloudflare",
    "Security Check",
    "Please verify you are a human",
    "captcha",
    "blocked" ]

/-- Embeds `fetcher.is_blocked(html, status_code)`: status in {403, 429, 503},
or body shorter than 500 characters, or a case-insensitive keyword hit. -/
def is_blocked (html : String) (status_code : Nat) : Bool :=
  if status_code ∈ [403, 429, 503] then true
  else if html.length < 500 then true
  else
    let html_lower := str_lower html
    if block_keywords.any (fun keyword => str_contains html_lower (str_lower keyword)) then
      true
    else false

/-- The keyword set exactly as the specification words it (already in
lower case).  Used to state claim C1 against `is_blocked`. -/
def spec_block_keywords : List String :=
  [ "access denied",
    "403 forbidden",
    "attention required",
    "cloudflare",
    "security check",
    "please verify you are a human",
    "captcha",
    "blocked" ]

theorem spec_keywords_eq_lowered : block_keywords.map str_lower = spec_block_keywords := by
  decide

/-- C1: `is_blocked` returns true exactly when the status code is one of
403, 429, 503, or the body is shorter than 500 characters, or the body
case-insensitively contains one of the eight spec keywords; in
particular any listed status code forces true, and any body shorter than
500 characters forces true. -/
theorem is_blocked_spec (s : Nat) (b : String) :
    (is_blocked b s = true ↔
      ((s = 403 ∨ s = 429 ∨ s = 503) ∨ b.length < 500 ∨
        ∃ k ∈ spec_block_keywords, str_contains (str_lower b) k = true))
    ∧ ((s = 403 ∨ s = 429 ∨ s = 503) → is_blocked b s = true)
    ∧ (b.length < 500 → is_blocked b s = true) := by
  have hmain : is_blocked b s = true ↔
      ((s = 403 ∨ s = 429 ∨ s = 503) ∨ b.length < 500 ∨
        ∃ k ∈ spec_block_keywords, str_contains (str_lower b) k = true) := by
    unfold is_blocked
    split
    · rename_i hmem
      simp only [List.mem_cons, List.not_mem_nil, or_false] at hmem
      simp [hmem]
    · rename_i hmem
      simp only [List.mem_cons, List.not_mem_nil, or_false] at hmem
      split
      · rename_i hlen
        simp [hlen]
      · rename_i hlen
        dsimp only
        by_cases hany :
            (block_keywords.any fun keyword => str_contains (str_lower b) (str_lower keyword)) = true
        · rw [if_pos hany]
          rw [List.any_eq_true] at hany
          obtain ⟨k, hk, hc⟩ := hany
          constructor
          · intro _
            refine Or.inr (Or.inr ⟨str_lower k, ?_, hc⟩)
            rw [← spec_keywords_eq_lowered]
            exact List.mem_map_of_mem _ hk
          · intro _; rfl
        · rw [if_neg hany]
          rw [Bool.not_eq_true, List.any_eq_false] at hany
          constructor
          · intro h; exact absurd h (by simp)
          · intro h
            rcases h with h | h | ⟨k, hk, hc⟩
            · exact absurd h hmem
            · exact absurd h hlen
            · rw [← spec_keywords_eq_lowered] at hk
              obtain ⟨k0, hk0, rfl⟩ := List.mem_map.mp hk
              exact absurd hc (by simpa using hany k0 hk0)
  refine ⟨hmain, fun h => hmain.mpr (Or.inl h), fun h => hmain.mpr (Or.inr (Or.inl h))⟩

/-- Witness for C1 at a concrete input: the empty body with status 404
is blocked because its length is below 500. -/
theorem is_blocked_spec_witness : is_blocked "" 404 = true :=
  (is_blocked_spec 404 "").2.2 (by decide)

/-! Section: Extraction Chain — `extractor.py`

Each strategy helper is a literal translation of its Python function.
The library calls it makes are supplied through `LibEnv`: for one
invocation of `multi_strategy_extract` on a fixed `(html, url)` pair,
each field records what the corresponding library call would return (or
raise). -/

/-- Result of `BeautifulSoup(html, "lxml")` as far as the source uses
it: `find sel` is the text (`get_text(strip=True)`) of the first element
matching tag `sel` (`none` when no element matches), `select_one sel`
the text (`get_text("\n", strip=True)`) of the first element matching
CSS selector `sel`. -/
structure Soup where
  find : String → Option String
  select_one : String → Option String

/-- Oracle for the library calls of one `multi_strategy_extract`
invocation. -/
structure LibEnv where
  /-- Result of `trafilatura.extract(html, ...)`: `none` models Python `None`. -/
  trafExtract : LibResult (Option String)
  /-- Value of `metadata.title if metadata else ""` after
  `trafilatura.extract_metadata(html)`. -/
  trafTitle : LibResult String
  /-- newspaper3k `Article(url)` download+parse: `(article.title, article.text)`,
  with `none` title modelling Python `None`. -/
  newspaper : LibResult (Option String × String)
  /-- readability: `(doc.short_title(), text)` where `text` is the
  summary HTML flattened by `get_text("\n", strip=True)`. -/
  readability : LibResult (String × String)
  /-- Result of `BeautifulSoup(html, "lxml")` for the fourth strategy. -/
  soup : LibResult Soup
  /-- Result of `BeautifulSoup(html, "lxml").get_text("\n", strip=True)` — the
  visible text of the whole page, used by the terminal fallback. -/
  pageText : String

/-- Embeds `extractor.extract_with_trafilatura`. -/
def extract_with_trafilatura (env : LibEnv) : String × String :=
  match env.trafExtract with
  | .exn _ => ("", "")
  | .ok extracted =>
    match env.trafTitle with
    | .exn _ => ("", "")
    | .ok title =>
      match extracted with
      | some e => if e.length > 100 then (title, e) else ("", "")
      | none => ("", "")

/-- Embeds `extractor.extract_with_newspaper`. -/
def extract_with_newspaper (env : LibEnv) : String × String :=
  match env.newspaper with
  | .exn _ => ("", "")
  | .ok (title, text) =>
    if text.length > 100 then (title.getD "", text) else ("", "")

/-- Embeds `extractor.extract_with_readability`. -/
def extract_with_readability (env : LibEnv) : String × String :=
  match env.readability with
  | .exn _ => ("", "")
  | .ok (title, text) =>
    if text.length > 100 then (title, text) else ("", "")

/-- The tag list the fourth strategy tries for the title. -/
def title_selectors : List String := ["h1", "title"]

/-- The selector list the fourth strategy tries for the body. -/
def content_selectors : List String :=
  ["article", "main", "[role=\x27main\x27]", ".post-content", ".entry-content"]

/-- The title loop of `extract_with_beautifulsoup`: first matching tag
wins. -/
def bs_title_loop (soup : Soup) : List String → String
  | [] => ""
  | sel :: rest =>
    match soup.find sel with
    | some text => text
    | none => bs_title_loop soup rest

/-- The content loop of `extract_with_beautifulsoup`: `content` holds
the text of the last matching selector; the loop breaks early only when
that text exceeds 200 characters, and whatever `content` holds at the
end is returned. -/
def bs_content_loop (soup : Soup) (content : String) : List String → String
  | [] => content
  | sel :: rest =>
    match soup.select_one sel with
    | some text =>
      if text.length > 200 then text else bs_content_loop soup text rest
    | none => bs_content_loop soup content rest

/-- Embeds `extractor.extract_with_beautifulsoup`. -/
def extract_with_beautifulsoup (env : LibEnv) : String × String :=
  match env.soup with
  | .exn _ => ("", "")
  | .ok soup =>
    (bs_title_loop soup title_selectors, bs_content_loop soup "" content_selectors)

/-- The acceptance test `multi_strategy_extract` applies to every
content of every strategy: Python `content and len(content) > 100`. -/
def py_accept (content : String) : Bool :=
  !content.isEmpty && decide (content.length > 100)

/-- The sentinel title of the terminal fallback. -/
def fallback_title : String := "제목 추출 실패"

/-- Embeds `extractor.multi_strategy_extract`: the four strategies in priority
order, first accepted content wins, else the whole-page-text fallback. -/
def multi_strategy_extract (env : LibEnv) : String × String :=
  let r1 := extract_with_trafilatura env
  if py_accept r1.2 then r1
  else
    let r2 := extract_with_newspaper env
    if py_accept r2.2 then r2
    else
      let r3 := extract_with_readability env
      if py_accept r3.2 then r3
      else
        let r4 := extract_with_beautifulsoup env
        if py_accept r4.2 then r4
        else (fallback_title, env.pageText)

/-- The strategy enumeration of the spec for `ExtractionCandidate`. -/
inductive Strategy where
  | TRAFILATURA
  | NEWS_ARTICLE
  | READABILITY
  | RAW_SELECTOR
  | FALLBACK_TEXT
deriving DecidableEq

/-- Version of `multi_strategy_extract` instrumented with the strategy tag of the spec:
identical control flow, additionally naming which strategy produced the
returned candidate. -/
def multi_strategy_extract_tagged (env : LibEnv) : Strategy × String × String :=
  let r1 := extract_with_trafilatura env
  if py_accept r1.2 then (Strategy.TRAFILATURA, r1)
  else
    let r2 := extract_with_newspaper env
    if py_accept r2.2 then (Strategy.NEWS_ARTICLE, r2)
    else
      let r3 := extract_with_readability env
      if py_accept r3.2 then (Strategy.READABILITY, r3)
      else
        let r4 := extract_with_beautifulsoup env
        if py_accept r4.2 then (Strategy.RAW_SELECTOR, r4)
        else (Strategy.FALLBACK_TEXT, fallback_title, env.pageText)

theorem tagged_projects (env : LibEnv) :
    (multi_strategy_extract_tagged env).2 = multi_strategy_extract env := by
  unfold multi_strategy_extract_tagged multi_strategy_extract
  dsimp only
  split_ifs <;> rfl

/-- The candidate list of the chain, in priority order, paired with the
strategy tags of the spec. -/
def chain_candidates (env : LibEnv) : List (Strategy × String × String) :=
  [ (Strategy.TRAFILATURA, extract_with_trafilatura env),
    (Strategy.NEWS_ARTICLE, extract_with_newspaper env),
    (Strategy.READABILITY, extract_with_readability env),
    (Strategy.RAW_SELECTOR, extract_with_beautifulsoup env) ]

theorem traf_congr (env₂ env : LibEnv) (h1 : env₂.trafExtract = env.trafExtract)
    (h2 : env₂.trafTitle = env.trafTitle) :
    extract_with_trafilatura env₂ = extract_with_trafilatura env := by
  unfold extract_with_trafilatura; rw [h1, h2]

theorem news_congr (env₂ env : LibEnv) (h : env₂.newspaper = env.newspaper) :
    extract_with_newspaper env₂ = extract_with_newspaper env := by
  unfold extract_with_newspaper; rw [h]

theorem read_congr (env₂ env : LibEnv) (h : env₂.readability = env.readability) :
    extract_with_readability env₂ = extract_with_readability env := by
  unfold extract_with_readability; rw [h]

theorem bs_congr (env₂ env : LibEnv) (h : env₂.soup = env.soup) :
    extract_with_beautifulsoup env₂ = extract_with_beautifulsoup env := by
  unfold extract_with_beautifulsoup; rw [h]

/-- C7: the chain evaluates Trafilatura, Newspaper, Readability, the
BeautifulSoup selector search, then the fallback, in that fixed order,
and returns exactly the first candidate accepted by the chain's test
(`content` non-empty and longer than 100 characters); once a strategy is
accepted the result does not depend on any later library
calls (later strategies are not evaluated). -/
theorem chain_priority_order (env : LibEnv) :
    (multi_strategy_extract_tagged env).2 = multi_strategy_extract env
    ∧ multi_strategy_extract_tagged env =
        ((chain_candidates env).find? (fun c => py_accept c.2.2)).getD
          (Strategy.FALLBACK_TEXT, fallback_title, env.pageText)
    ∧ (py_accept (extract_with_trafilatura env).2 = true →
        ∀ env₂ : LibEnv, env₂.trafExtract = env.trafExtract →
          env₂.trafTitle = env.trafTitle →
          multi_strategy_extract_tagged env₂ = multi_strategy_extract_tagged env)
    ∧ (py_accept (extract_with_trafilatura env).2 = false →
       py_accept (extract_with_newspaper env).2 = true →
        ∀ env₂ : LibEnv, env₂.trafExtract = env.trafExtract →
          env₂.trafTitle = env.trafTitle → env₂.newspaper = env.newspaper →
          multi_strategy_extract_tagged env₂ = multi_strategy_extract_tagged env)
    ∧ (py_accept (extract_with_trafilatura env).2 = false →
       py_accept (extract_with_newspaper env).2 = false →
       py_accept (extract_with_readability env).2 = true →
        ∀ env₂ : LibEnv, env₂.trafExtract = env.trafExtract →
          env₂.trafTitle = env.trafTitle → env₂.newspaper = env.newspaper →
          env₂.readability = env.readability →
          multi_strategy_extract_tagged env₂ = multi_strategy_extract_tagged env)
    ∧ (py_accept (extract_with_trafilatura env).2 = false →
       py_accept (extract_with_newspaper env).2 = false →
       py_accept (extract_with_readability env).2 = false →
       py_accept (extract_with_beautifulsoup env).2 = true →
        ∀ env₂ : LibEnv, env₂.trafExtract = env.trafExtract →
          env₂.trafTitle = env.trafTitle → env₂.newspaper = env.newspaper →
          env₂.readability = env.readability → env₂.soup = env.soup →
          multi_strategy_extract_tagged env₂ = multi_strategy_extract_tagged env) := by
  refine ⟨tagged_projects env, ?_, ?_, ?_, ?_, ?_⟩
  · unfold multi_strategy_extract_tagged
    dsimp only
    split_ifs with h1 h2 h3 h4
    · simp [chain_candidates, List.find?, h1]
    · simp [chain_candidates, List.find?, h1, h2]
    · simp [chain_candidates, List.find?, h1, h2, h3]
    · simp [chain_candidates, List.find?, h1, h2, h3, h4]
    · simp [chain_candidates, List.find?, h1, h2, h3, h4]
  · intro hacc env₂ e1 e2
    have t1 := traf_congr env₂ env e1 e2
    simp [multi_strategy_extract_tagged, t1, hacc]
  · intro hrej1 hacc env₂ e1 e2 e3
    have t1 := traf_congr env₂ env e1 e2
    have t2 := news_congr env₂ env e3
    simp [multi_strategy_extract_tagged, t1, t2, hrej1, hacc]
  · intro hrej1 hrej2 hacc env₂ e1 e2 e3 e4
    have t1 := traf_congr env₂ env e1 e2
    have t2 := news_congr env₂ env e3
    have t3 := read_congr env₂ env e4
    simp [multi_strategy_extract_tagged, t1, t2, t3, hrej1, hrej2, hacc]
  · intro hrej1 hrej2 hrej3 hacc env₂ e1 e2 e3 e4 e5
    have t1 := traf_congr env₂ env e1 e2
    have t2 := news_congr env₂ env e3
    have t3 := read_congr env₂ env e4
    have t4 := bs_congr env₂ env e5
    simp [multi_strategy_extract_tagged, t1, t2, t3, t4, hrej1, hrej2, hrej3, hacc]

/-- A 150-character body text, to exercise the selector strategy between
the 100-character chain threshold and the 200-character break threshold. -/
def sel_text_150 : String := String.mk (List.replicate 150 'x')

/-- Soup whose only hit is an `article` element holding 150 characters. -/
def c2_soup : Soup :=
  { find := fun _ => none,
    select_one := fun sel => if sel = "article" then some sel_text_150 else none }

/-- Library oracle where the first three strategies raise and only the
`article` selector of the fourth matches, with 150 characters. -/
def c2_env : LibEnv :=
  { trafExtract := .exn "boom", trafTitle := .exn "boom",
    newspaper := .exn "boom", readability := .exn "boom",
    soup := .ok c2_soup, pageText := "PAGE" }

/-- C2 counterexample: the chain returns a RAW_SELECTOR candidate whose
content is only 150 characters — not more than 200.  The 200-character
test inside the fourth strategy only decides whether the selector loop
breaks early; the text of the last matching selector is returned and the
chain accepts it at the common 100-character threshold. -/
theorem raw_selector_accepted_at_150 :
    multi_strategy_extract_tagged c2_env = (Strategy.RAW_SELECTOR, "", sel_text_150)
    ∧ multi_strategy_extract c2_env = ("", sel_text_150)
    ∧ sel_text_150.length = 150 ∧ sel_text_150.length ≤ 200 := by
  refine ⟨by decide, by decide, by decide, by decide⟩

/-- C2 amended: a RAW_SELECTOR candidate returned by the chain has
content longer than 100 characters (the chain's uniform acceptance
threshold); the 200-character bound only governs the early break of the
selector loop inside the fourth strategy. -/
theorem raw_selector_accepted_above_100 (env : LibEnv) (t c : String)
    (h : multi_strategy_extract_tagged env = (Strategy.RAW_SELECTOR, t, c)) :
    100 < c.length := by
  unfold multi_strategy_extract_tagged at h
  dsimp only at h
  split_ifs at h with h1 h2 h3 h4
  · exact absurd (congrArg Prod.fst h) (by simp)
  · exact absurd (congrArg Prod.fst h) (by simp)
  · exact absurd (congrArg Prod.fst h) (by simp)
  · have hc : (extract_with_beautifulsoup env).2 = c :=
      congrArg (fun p => p.2.2) h
    rw [hc] at h4
    simp [py_accept] at h4
    exact h4.2
  · exact absurd (congrArg Prod.fst h) (by simp)

/-- Witness for the amended C2 at the concrete 150-character input. -/
theorem raw_selector_accepted_above_100_witness : 100 < sel_text_150.length :=
  raw_selector_accepted_above_100 c2_env "" sel_text_150 (by decide)

/-- C3: the chain never raises — each strategy helper maps a raised
library exception to the empty candidate, and when every strategy is
rejected the terminal fallback returns the visible text of the whole page
(newline-per-block `get_text`) under the sentinel title `제목 추출 실패`. -/
theorem extract_never_raises (env : LibEnv) :
    (∀ m, env.trafExtract = .exn m → extract_with_trafilatura env = ("", ""))
    ∧ (∀ m, env.newspaper = .exn m → extract_with_newspaper env = ("", ""))
    ∧ (∀ m, env.readability = .exn m → extract_with_readability env = ("", ""))
    ∧ (∀ m, env.soup = .exn m → extract_with_beautifulsoup env = ("", ""))
    ∧ (py_accept (extract_with_trafilatura env).2 = false →
       py_accept (extract_with_newspaper env).2 = false →
       py_accept (extract_with_readability env).2 = false →
       py_accept (extract_with_beautifulsoup env).2 = false →
       multi_strategy_extract env = (fallback_title, env.pageText)) := by
  refine ⟨?_, ?_, ?_, ?_, ?_⟩
  · intro m h; unfold extract_with_trafilatura; rw [h]
  · intro m h; unfold extract_with_newspaper; rw [h]
  · intro m h; unfold extract_with_readability; rw [h]
  · intro m h; unfold extract_with_beautifulsoup; rw [h]
  · intro h1 h2 h3 h4
    simp [multi_strategy_extract, h1, h2, h3, h4]

/-- Library oracle where every library call raises. -/
def c3_env : LibEnv :=
  { trafExtract := .exn "t", trafTitle := .exn "tm", newspaper := .exn "n",
    readability := .exn "r", soup := .exn "s", pageText := "PAGE" }

/-- Witness for C3: when every library call raises, the chain still
returns the sentinel fallback candidate. -/
theorem extract_never_raises_witness :
    multi_strategy_extract c3_env = (fallback_title, "PAGE") :=
  (extract_never_raises c3_env).2.2.2.2 (by decide) (by decide) (by decide) (by decide)

/-- Library oracle where Trafilatura succeeds with a 150-character body. -/
def c7_env : LibEnv :=
  { trafExtract := .ok (some sel_text_150), trafTitle := .ok "T",
    newspaper := .exn "n", readability := .exn "r", soup := .exn "s",
    pageText := "PG" }

/-- Same oracle with the library calls of every later strategy replaced. -/
def c7_env2 : LibEnv :=
  { trafExtract := .ok (some sel_text_150), trafTitle := .ok "T",
    newspaper := .ok (some "N", "ntext"), readability := .ok ("R", "rtext"),
    soup := .ok c2_soup, pageText := "PG2" }

/-- Witness for C7: with Trafilatura accepted, changing every later
strategy's library behaviour does not change the chain's result. -/
theorem chain_priority_order_witness :
    multi_strategy_extract_tagged c7_env2 = multi_strategy_extract_tagged c7_env :=
  (chain_priority_order c7_env).2.2.1 (by decide) c7_env2 rfl rfl

/-! Section: Acquisition Pipeline — `fetcher.py`

`fetch_html` escalates STATIC → RENDERED → ARCHIVED.  Each network /
browser call is an oracle input; one `FetchEnv` describes one request:
the static GET, the two textually distinct Playwright invocations and
the three textually distinct `fetch_from_archive` invocations each get
their own oracle, because each is a fresh call at run time. -/

/-- An httpx response as the source uses it. -/
structure HttpResp where
  status_code : Nat
  text : String
deriving DecidableEq

/-- Embeds `fetcher.fetch_with_playwright`: the whole body is wrapped in
`try/except` returning `("", True)` on any exception; on a rendered
document it classifies blocking via `is_blocked(html, 200)`. -/
def fetch_with_playwright (render : LibResult String) : String × Bool :=
  match render with
  | .exn _ => ("", true)
  | .ok html => (html, is_blocked html 200)

/-- The `closest` snapshot record of the wayback availability API. -/
structure Snapshot where
  available : Bool
  url : String
  timestamp : String

/-- Oracle for one `fetch_from_archive` invocation: the availability
query result (outer `none` = falsy `archived_snapshots`, inner `none` =
missing `closest`), and the body text returned by GETting a given
archive URL. -/
structure ArchiveEnv where
  availability : LibResult (Option (Option Snapshot))
  contentAt : String → LibResult String

/-- The prefix of every error `fetch_from_archive` raises:
"original site and archive both unreachable: ". -/
def bothFailMark : String := "원본 사이트 및 아카이브 모두 접근 실패: "

/-- Error message when `archived_snapshots` is falsy. -/
def noSnapshotMsg : String := "아카이브에 해당 URL이 없음!!!"

/-- Error message when `closest` is missing or not available. -/
def notAvailableMsg : String := "사용 가능한 아카이브가 없음!!!"

/-- The snapshot-URL rewrite of `fetch_from_archive`: insert the `id_`
flag after the timestamp segment so that the archive serves the raw
document without its own UI wrapper. -/
def rewrite_archive_url (archive_url : String) : String :=
  if str_contains archive_url "web.archive.org/web/" then
    match archive_url.splitOn "/web/" with
    | [p0, p1] =>
      let segs := p1.splitOn "/"
      p0 ++ "/web/" ++ segs.headD "" ++ "id_/" ++ String.intercalate "/" segs.tail
    | _ => archive_url
  else archive_url

/-- Embeds `fetcher.fetch_from_archive`: look up the closest snapshot, fail if
none is usable, otherwise GET the rewritten snapshot URL.  Every failure
inside is re-raised as one exception whose message is `bothFailMark`
followed by the message of the inner failure. -/
def fetch_from_archive (env : ArchiveEnv) : Except String String :=
  match env.availability with
  | .exn m => .error (bothFailMark ++ m)
  | .ok none => .error (bothFailMark ++ noSnapshotMsg)
  | .ok (some none) => .error (bothFailMark ++ notAvailableMsg)
  | .ok (some (some closest)) =>
    if closest.available then
      match env.contentAt (rewrite_archive_url closest.url) with
      | .exn m => .error (bothFailMark ++ m)
      | .ok html => .ok html
    else .error (bothFailMark ++ notAvailableMsg)

/-- Oracle for one `fetch_html` request. -/
structure FetchEnv where
  /-- the static `client.get(url)` (exception = transport error). -/
  staticResp : LibResult HttpResp
  /-- the Playwright render inside the static `try` block. -/
  render1 : LibResult String
  /-- the Playwright render of step 2 (after the `try` block). -/
  render2 : LibResult String
  /-- Oracle of `fetch_from_archive` when `use_archive=True`. -/
  archive0 : ArchiveEnv
  /-- Oracle of `fetch_from_archive` inside the static `try` block. -/
  archive1 : ArchiveEnv
  /-- Oracle of `fetch_from_archive` in step 2. -/
  archive2 : ArchiveEnv

/-- The code after the `try` block of `fetch_html`: Playwright, then the
archive if the render is blocked.  An archive failure here propagates. -/
def fetch_html_step2 (env : FetchEnv) : Except String (String × Bool) :=
  let r := fetch_with_playwright env.render2
  if r.2 then
    match fetch_from_archive env.archive2 with
    | .ok h => .ok (h, true)
    | .error m => .error m
  else .ok (r.1, false)

/-- Embeds `fetcher.fetch_html(url, timeout_s, use_archive)`: the value is
`(html, from_archive)`; `.error` models an exception escaping to the
caller.  Inside the `try` block every exception — including a failing
`fetch_from_archive` — is caught and control falls through to step 2. -/
def fetch_html (env : FetchEnv) (use_archive : Bool) : Except String (String × Bool) :=
  if use_archive then
    match fetch_from_archive env.archive0 with
    | .ok h => .ok (h, true)
    | .error m => .error m
  else
    match env.staticResp with
    | .ok resp =>
      if is_blocked resp.text resp.status_code then
        let r := fetch_with_playwright env.render1
        if r.2 then
          match fetch_from_archive env.archive1 with
          | .ok h => .ok (h, true)
          | .error _ => fetch_html_step2 env
        else .ok (r.1, false)
      else if resp.text.length > 1000 then .ok (resp.text, false)
      else fetch_html_step2 env
    | .exn _ => fetch_html_step2 env

/-- C4: a static response that is not blocked and longer than 1000
characters ends acquisition at the STATIC tier with that body and
`from_archive = false`; the render and archive oracles are arbitrary, so
the RENDERED tier is never consulted. -/
theorem static_tier_short_circuits (env : FetchEnv) (resp : HttpResp)
    (hs : env.staticResp = .ok resp)
    (hnb : is_blocked resp.text resp.status_code = false)
    (hlen : 1000 < resp.text.length) :
    fetch_html env false = .ok (resp.text, false) := by
  unfold fetch_html
  rw [hs]
  simp [hnb, hlen]

/-- A 1500-character keyword-free body. -/
def static_html_1500 : String := String.mk (List.replicate 1500 'a')

/-- An archive oracle that always fails. -/
def dead_archive : ArchiveEnv :=
  { availability := .exn "availability query failed",
    contentAt := fun _ => .exn "archive fetch failed" }

/-- Witness for C4: a concrete 200-status 1500-character response stops
at the STATIC tier even though the oracle of every later tier fails. -/
theorem static_tier_short_circuits_witness :
    fetch_html
      { staticResp := .ok { status_code := 200, text := static_html_1500 },
        render1 := .exn "pw1", render2 := .exn "pw2",
        archive0 := dead_archive, archive1 := dead_archive, archive2 := dead_archive }
      false = .ok (static_html_1500, false) :=
  static_tier_short_circuits _ { status_code := 200, text := static_html_1500 }
    rfl (by decide) (by decide)

/-- C10 (implicit): a static response that is not blocked but has at
most 1000 characters is discarded and acquisition continues exactly as
if the static attempt had raised: the result is `fetch_html_step2`, the
same as with a failing static transport. -/
theorem static_middle_case_escalates (env : FetchEnv) (resp : HttpResp) (m : String)
    (hs : env.staticResp = .ok resp)
    (hnb : is_blocked resp.text resp.status_code = false)
    (hlen : resp.text.length ≤ 1000) :
    fetch_html env false = fetch_html_step2 env
    ∧ fetch_html env false = fetch_html { env with staticResp := .exn m } false := by
  have h1 : fetch_html env false = fetch_html_step2 env := by
    unfold fetch_html
    rw [hs]
    simp [hnb, Nat.not_lt.mpr hlen]
  have h2 : fetch_html { env with staticResp := .exn m } false =
      fetch_html_step2 { env with staticResp := .exn m } := by
    unfold fetch_html
    rfl
  have h3 : fetch_html_step2 { env with staticResp := .exn m } = fetch_html_step2 env := by
    unfold fetch_html_step2
    rfl
  exact ⟨h1, by rw [h1, h2, h3]⟩

/-- A 600-character keyword-free body: not blocked, yet not above the
1000-character static success threshold. -/
def static_html_600 : String := String.mk (List.replicate 600 'a')

/-- Witness for C10 at a concrete 600-character response. -/
theorem static_middle_case_escalates_witness :
    fetch_html
      { staticResp := .ok { status_code := 200, text := static_html_600 },
        render1 := .exn "pw1", render2 := .ok static_html_1500,
        archive0 := dead_archive, archive1 := dead_archive, archive2 := dead_archive }
      false
      = fetch_html_step2
      { staticResp := .ok { status_code := 200, text := static_html_600 },
        render1 := .exn "pw1", render2 := .ok static_html_1500,
        archive0 := dead_archive, archive1 := dead_archive, archive2 := dead_archive } :=
  (static_middle_case_escalates _ { status_code := 200, text := static_html_600 } "boom"
    rfl (by decide) (by decide)).1

theorem isPrefixOf_append_self (l r : List Char) : l.isPrefixOf (l ++ r) = true := by
  induction l with
  | nil => simp [List.isPrefixOf]
  | cons a as ih => simp [List.isPrefixOf, ih]

theorem str_append_data (s t : String) : (s ++ t).data = s.data ++ t.data := rfl

/-- Every error `fetch_from_archive` produces starts with the
"both unreachable" marker. -/
theorem archive_error_marked (aenv : ArchiveEnv) (m : String)
    (h : fetch_from_archive aenv = .error m) :
    bothFailMark.data.isPrefixOf m.data = true := by
  unfold fetch_from_archive at h
  have marked : ∀ r : String, m = bothFailMark ++ r →
      bothFailMark.data.isPrefixOf m.data = true := by
    intro r hr
    rw [hr, str_append_data]
    exact isPrefixOf_append_self _ _
  cases hav : aenv.availability with
  | exn m2 => rw [hav] at h; injection h with h; exact marked m2 h.symm
  | ok avail =>
    rw [hav] at h
    match avail with
    | none => injection h with h; exact marked noSnapshotMsg h.symm
    | some none => injection h with h; exact marked notAvailableMsg h.symm
    | some (some closest) =>
      dsimp only at h
      by_cases hava : closest.available = true
      · rw [if_pos hava] at h
        cases hcont : aenv.contentAt (rewrite_archive_url closest.url) with
        | exn m2 => rw [hcont] at h; injection h with h; exact marked m2 h.symm
        | ok html => rw [hcont] at h; cases h
      · rw [if_neg hava] at h
        injection h with h
        exact marked notAvailableMsg h.symm

/-- An error escaping `fetch_html_step2` is exactly the error of its
archive attempt. -/
theorem step2_error_from_archive (env : FetchEnv) (m : String)
    (h : fetch_html_step2 env = .error m) :
    fetch_from_archive env.archive2 = .error m := by
  unfold fetch_html_step2 at h
  by_cases hb : (fetch_with_playwright env.render2).2 = true
  · simp only [hb, if_true] at h
    cases harch : fetch_from_archive env.archive2 with
    | ok v => rw [harch] at h; cases h
    | error m2 => rw [harch] at h; injection h with h; rw [h]
  · simp only [hb, Bool.false_eq_true, if_false] at h
    cases h

/-- C5 amended: the only way `fetch_html` fails is by the failure of a
final ARCHIVED-tier attempt (the `use_archive` one or the step-2 one; an
archive failure on the blocked-static path is swallowed and the RENDERED
tier retried), and the escaping error is that archive error, which
always starts with the fixed "original site and archive both
unreachable" marker. -/
theorem acquisition_fails_only_via_archive (env : FetchEnv) (ua : Bool) (m : String)
    (h : fetch_html env ua = .error m) :
    (fetch_from_archive env.archive0 = .error m ∨
      fetch_from_archive env.archive2 = .error m)
    ∧ bothFailMark.data.isPrefixOf m.data = true := by
  unfold fetch_html at h
  cases ua with
  | true =>
    simp only [if_true] at h
    cases harch : fetch_from_archive env.archive0 with
    | ok v => rw [harch] at h; cases h
    | error m2 =>
      rw [harch] at h
      injection h with h
      subst h
      exact ⟨Or.inl rfl, archive_error_marked env.archive0 m2 harch⟩
  | false =>
    simp only [Bool.false_eq_true, if_false] at h
    have from2 : fetch_html_step2 env = .error m →
        (fetch_from_archive env.archive0 = .error m ∨
          fetch_from_archive env.archive2 = .error m)
        ∧ bothFailMark.data.isPrefixOf m.data = true := by
      intro h2
      have harch := step2_error_from_archive env m h2
      exact ⟨Or.inr harch, archive_error_marked env.archive2 m harch⟩
    cases hs : env.staticResp with
    | exn m2 => rw [hs] at h; exact from2 h
    | ok resp =>
      rw [hs] at h
      dsimp only at h
      by_cases hbk : is_blocked resp.text resp.status_code = true
      · rw [if_pos hbk] at h
        by_cases hb1 : (fetch_with_playwright env.render1).2 = true
        · simp only [hb1, if_true] at h
          cases harch : fetch_from_archive env.archive1 with
          | ok v => rw [harch] at h; cases h
          | error m2 => rw [harch] at h; exact from2 h
        · simp only [hb1, Bool.false_eq_true, if_false] at h
          cases h
      · rw [if_neg hbk] at h
        by_cases hlen : resp.text.length > 1000
        · rw [if_pos hlen] at h; cases h
        · rw [if_neg hlen] at h; exact from2 h

/-- A request where the origin fails with a named transport error and
the final archive attempt reports no snapshot. -/
def c5_env : FetchEnv :=
  { staticResp := .exn "DNS lookup failed for origin",
    render1 := .exn "pw1", render2 := .exn "render failed",
    archive0 := dead_archive, archive1 := dead_archive,
    archive2 := { availability := .ok none, contentAt := fun _ => .exn "c" } }

/-- C5 counterexample: acquisition fails with the archive error message,
and that message does not contain the original-site failure reason
("DNS lookup failed for origin") — the surfaced error carries only the
archive-side reason behind the fixed marker. -/
theorem archive_error_omits_origin_reason :
    fetch_html c5_env false = .error (bothFailMark ++ noSnapshotMsg)
    ∧ str_contains (bothFailMark ++ noSnapshotMsg) "DNS lookup failed for origin" = false :=
  ⟨rfl, by decide⟩

/-- Witness for the amended C5 at the concrete failing request. -/
theorem acquisition_fails_only_via_archive_witness :
    (fetch_from_archive c5_env.archive0 = .error (bothFailMark ++ noSnapshotMsg) ∨
      fetch_from_archive c5_env.archive2 = .error (bothFailMark ++ noSnapshotMsg))
    ∧ bothFailMark.data.isPrefixOf (bothFailMark ++ noSnapshotMsg).data = true :=
  acquisition_fails_only_via_archive c5_env false (bothFailMark ++ noSnapshotMsg) rfl

/-- C6: once an archive attempt is reached and finds an available
snapshot whose (rewritten, `id_`-flagged) URL serves a body, acquisition
terminates with that body and `from_archive = true` at each of the three
archive call sites — for every body, including ones the Blocking
Detector would classify as blocked, and with no further escalation. -/
theorem archived_tier_terminal (aenv : ArchiveEnv) (closest : Snapshot) (html : String)
    (hav : aenv.availability = .ok (some (some closest)))
    (hava : closest.available = true)
    (hc : aenv.contentAt (rewrite_archive_url closest.url) = .ok html) :
    fetch_from_archive aenv = .ok html
    ∧ (∀ env : FetchEnv, env.archive0 = aenv → fetch_html env true = .ok (html, true))
    ∧ (∀ env : FetchEnv, env.archive2 = aenv →
        (fetch_with_playwright env.render2).2 = true →
        fetch_html_step2 env = .ok (html, true))
    ∧ (∀ env : FetchEnv, ∀ resp : HttpResp, env.archive1 = aenv →
        env.staticResp = .ok resp →
        is_blocked resp.text resp.status_code = true →
        (fetch_with_playwright env.render1).2 = true →
        fetch_html env false = .ok (html, true)) := by
  have hfa : fetch_from_archive aenv = .ok html := by
    unfold fetch_from_archive
    rw [hav]
    simp [hava, hc]
  refine ⟨hfa, ?_, ?_, ?_⟩
  · intro env he
    simp [fetch_html, he, hfa]
  · intro env he hb
    simp [fetch_html_step2, hb, he, hfa]
  · intro env resp he hs hbk hb1
    unfold fetch_html
    rw [hs]
    simp [hbk, hb1, he, hfa]

/-- A concrete available snapshot. -/
def c6_snapshot : Snapshot :=
  { available := true,
    url := "http://web.archive.org/web/20200101000000/http://example.com/a",
    timestamp := "20200101000000" }

/-- A concrete archive oracle serving the empty body for every URL. -/
def c6_archive : ArchiveEnv :=
  { availability := .ok (some (some c6_snapshot)), contentAt := fun _ => .ok "" }

/-- Witness for C6: the archived empty body — which `is_blocked`
classifies as blocked — is still returned as the final result with
`from_archive = true`. -/
theorem archived_tier_terminal_witness :
    fetch_html
      { staticResp := .exn "origin down", render1 := .exn "pw1", render2 := .exn "pw2",
        archive0 := c6_archive, archive1 := dead_archive, archive2 := dead_archive }
      true = .ok ("", true) :=
  (archived_tier_terminal c6_archive c6_snapshot "" rfl rfl rfl).2.1
    { staticResp := .exn "origin down", render1 := .exn "pw1", render2 := .exn "pw2",
      archive0 := c6_archive, archive1 := dead_archive, archive2 := dead_archive }
    rfl

/-! Section: Request Orchestrator — `research_routes.py`.

The generator of the streaming endpoint is modelled as the list of SSE events
it yields for one request; the synchronous endpoint as an
`Except (status code × detail) response`. -/

/-- The `status` field of a progress event. -/
inductive EvStatus where
  | crawling
  | archive_notice
  | parsing
  | ai_processing
  | done
  | error
deriving DecidableEq

/-- The `data` payload of the final `done` event. -/
structure FinalData where
  title : String
  content : String
  source_url : String
  from_archive : Bool

/-- One SSE event: the JSON object of a `data: ...` line.  The error
event carries no `progress` field, hence the `Option`. -/
structure Event where
  status : EvStatus
  progress : Option Nat
  message : String
  data : Option FinalData

/-- Embeds `research_routes.ai_refine`: returns the input unchanged when no
OpenAI client is configured, the content is shorter than 200 characters,
or the completion call raises. -/
def ai_refine (openaiConfigured : Bool) (completion : LibResult String)
    (content : String) : String :=
  if openaiConfigured = false ∨ content.length < 200 then content
  else
    match completion with
    | .ok refined => refined
    | .exn _ => content

/-- The user-friendly rewrite applied to an error message in the
streaming handler: any message mentioning "archive" (case-insensitively)
is replaced by a fixed combined-failure text. -/
def friendly_error (msg : String) : String :=
  if str_contains (str_lower msg) "archive" then
    "원본 사이트와 Archive.org 모두 접근할 수 없습니다."
  else msg

/-- The short-content error message raised in the streaming handler. -/
def extractFailMsg : String := "콘텐츠 추출 실패. HTML 구조를 파싱할 수 없습니다."

def crawlingEvent : Event :=
  { status := .crawling, progress := some 25, message := "크롤링 중...", data := none }

def archiveNoticeEvent : Event :=
  { status := .archive_notice, progress := some 40,
    message := "원본 사이트 차단됨. Archive.org 버전을 사용합니다.", data := none }

def parsingEvent : Event :=
  { status := .parsing, progress := some 50, message := "추출 중...", data := none }

def aiProcessingEvent : Event :=
  { status := .ai_processing, progress := some 75, message := "AI 정제 중...", data := none }

def doneEvent (d : FinalData) : Event :=
  { status := .done, progress := some 100, message := "완료!", data := some d }

def errorEvent (msg : String) : Event :=
  { status := .error, progress := none, message := msg, data := none }

/-- Oracle for one request handled by either endpoint. -/
structure StreamEnv where
  fetch : FetchEnv
  extract : LibEnv
  /-- whether `_openai_client` is configured (non-null). -/
  openaiConfigured : Bool
  /-- the chat-completion call inside `ai_refine` (already stripped). -/
  completion : LibResult String

/-- The event sequence yielded by `extract_structured_stream.generate`:
crawling notice, fetch, optional archive notice, parsing notice,
extraction, short-content check, optional AI notice and refinement, then
the terminal done event; any raised exception ends the stream with one
error event whose message went through `friendly_error`. -/
def generate (env : StreamEnv) (url : String) : List Event :=
  match fetch_html env.fetch false with
  | .error e => [crawlingEvent, errorEvent (friendly_error e)]
  | .ok (_, from_archive) =>
    let head :=
      if from_archive then [crawlingEvent, archiveNoticeEvent, parsingEvent]
      else [crawlingEvent, parsingEvent]
    let r := multi_strategy_extract env.extract
    if r.2.isEmpty || decide (r.2.length < 100) then
      head ++ [errorEvent (friendly_error extractFailMsg)]
    else if env.openaiConfigured && decide (r.2.length > 200) then
      let refined := ai_refine env.openaiConfigured env.completion r.2
      let content := if refined.isEmpty then r.2 else refined
      head ++ [aiProcessingEvent,
        doneEvent { title := r.1, content := content, source_url := url,
                    from_archive := from_archive }]
    else
      head ++ [doneEvent { title := r.1, content := r.2, source_url := url,
                           from_archive := from_archive }]

/-- The 422 detail of the short-content error of the synchronous endpoint. -/
def parseFailDetail : String := "콘텐츠를 추출할 수 없습니다. 페이지 구조를 파싱할 수 없습니다."

/-- The response model of the synchronous endpoint (fields the handler
sets). -/
structure ExtractStructuredResp where
  title : String
  content : String
  lead_image_url : Option String
  source_url : String
  document_type : Option String
  keywords : Option (List String)

/-- Embeds `research_routes.extract_structured`: fetch, extract, reject content
shorter than 100 characters with a 422, optionally refine, and mark
archived provenance in `document_type`.  A fetch exception surfaces as a
500 wrapping its message. -/
def extract_structured (env : StreamEnv) (url : String) :
    Except (Nat × String) ExtractStructuredResp :=
  match fetch_html env.fetch false with
  | .error e => .error (500, "페이지를 가져올 수 없습니다: " ++ e)
  | .ok (_, from_archive) =>
    let r := multi_strategy_extract env.extract
    if r.2.isEmpty || decide (r.2.length < 100) then
      .error (422, parseFailDetail)
    else
      let content :=
        if env.openaiConfigured && decide (r.2.length > 200) then
          ai_refine env.openaiConfigured env.completion r.2
        else r.2
      .ok { title := r.1, content := content, lead_image_url := none,
            source_url := url,
            document_type := if from_archive then some "archived_version" else none,
            keywords := none }

/-- True exactly on the two terminal event statuses. -/
def isTerminal : EvStatus → Bool
  | .done => true
  | .error => true
  | _ => false

/-- C8: for every request, the progress values of the stream (in order of
emission) form a non-decreasing subsequence of 25, 40, 50, 75, 100, and
the stream is one run of non-terminal events closed off by exactly one
terminal event whose status is `done` or `error` — nothing follows it. -/
theorem stream_events_wellformed (env : StreamEnv) (url : String) :
    List.Chain' (fun a b => a ≤ b) ((generate env url).filterMap Event.progress)
    ∧ ((generate env url).filterMap Event.progress).Sublist [25, 40, 50, 75, 100]
    ∧ ∃ l e, generate env url = l ++ [e] ∧ isTerminal e.status = true
        ∧ ∀ x ∈ l, isTerminal x.status = false := by
  have hgen : ∃ l e, generate env url = l ++ [e] ∧ isTerminal e.status = true
      ∧ (∀ x ∈ l, isTerminal x.status = false)
      ∧ (l ++ [e]).filterMap Event.progress ∈
          ([[25], [25, 50], [25, 40, 50], [25, 50, 100], [25, 40, 50, 100],
            [25, 50, 75, 100], [25, 40, 50, 75, 100]] : List (List Nat)) := by
    unfold generate
    cases hf : fetch_html env.fetch false with
    | error e =>
      refine ⟨[crawlingEvent], errorEvent (friendly_error e), rfl, rfl, ?_, ?_⟩
      · intro x hx
        simp only [List.mem_singleton] at hx
        subst hx
        rfl
      · simp [crawlingEvent, errorEvent]
    | ok p =>
      obtain ⟨html, fa⟩ := p
      dsimp only
      cases hshort : ((multi_strategy_extract env.extract).2.isEmpty
          || decide ((multi_strategy_extract env.extract).2.length < 100)) with
      | true =>
        simp only [hshort, if_true]
        cases fa with
        | true =>
          refine ⟨[crawlingEvent, archiveNoticeEvent, parsingEvent],
            errorEvent (friendly_error extractFailMsg), by simp, rfl, ?_, ?_⟩
          · intro x hx
            simp only [List.mem_cons, List.not_mem_nil, or_false] at hx
            rcases hx with rfl | rfl | rfl <;> rfl
          · simp [crawlingEvent, archiveNoticeEvent, parsingEvent, errorEvent]
        | false =>
          refine ⟨[crawlingEvent, parsingEvent],
            errorEvent (friendly_error extractFailMsg), by simp, rfl, ?_, ?_⟩
          · intro x hx
            simp only [List.mem_cons, List.not_mem_nil, or_false] at hx
            rcases hx with rfl | rfl <;> rfl
          · simp [crawlingEvent, parsingEvent, errorEvent]
      | false =>
        simp only [hshort, Bool.false_eq_true, if_false]
        cases hai : (env.openaiConfigured
            && decide ((multi_strategy_extract env.extract).2.length > 200)) with
        | true =>
          simp only [hai, if_true]
          cases fa with
          | true =>
            refine ⟨[crawlingEvent, archiveNoticeEvent, parsingEvent, aiProcessingEvent],
              doneEvent _, rfl, rfl, ?_, ?_⟩
            · intro x hx
              simp only [List.mem_cons, List.not_mem_nil, or_false] at hx
              rcases hx with rfl | rfl | rfl | rfl <;> rfl
            · simp [crawlingEvent, archiveNoticeEvent, parsingEvent, aiProcessingEvent,
                doneEvent]
          | false =>
            refine ⟨[crawlingEvent, parsingEvent, aiProcessingEvent],
              doneEvent _, rfl, rfl, ?_, ?_⟩
            · intro x hx
              simp only [List.mem_cons, List.not_mem_nil, or_false] at hx
              rcases hx with rfl | rfl | rfl <;> rfl
            · simp [crawlingEvent, parsingEvent, aiProcessingEvent, doneEvent]
        | false =>
          simp only [hai, Bool.false_eq_true, if_false]
          cases fa with
          | true =>
            refine ⟨[crawlingEvent, archiveNoticeEvent, parsingEvent],
              doneEvent _, rfl, rfl, ?_, ?_⟩
            · intro x hx
              simp only [List.mem_cons, List.not_mem_nil, or_false] at hx
              rcases hx with rfl | rfl | rfl <;> rfl
            · simp [crawlingEvent, archiveNoticeEvent, parsingEvent, doneEvent]
          | false =>
            refine ⟨[crawlingEvent, parsingEvent], doneEvent _, rfl, rfl, ?_, ?_⟩
            · intro x hx
              simp only [List.mem_cons, List.not_mem_nil, or_false] at hx
              rcases hx with rfl | rfl <;> rfl
            · simp [crawlingEvent, parsingEvent, doneEvent]
  obtain ⟨l, e, heq, hterm, hpre, hmem⟩ := hgen
  rw [heq]
  refine ⟨?_, ?_, l, e, rfl, hterm, hpre⟩
  · simp only [List.mem_cons, List.not_mem_nil, or_false] at hmem
    rcases hmem with h | h | h | h | h | h | h <;> rw [h] <;>
      norm_num [List.chain'_cons]
  · simp only [List.mem_cons, List.not_mem_nil, or_false] at hmem
    rcases hmem with h | h | h | h | h | h | h <;> rw [h] <;>
      decide

/-- C9: in the synchronous handler, content that is empty or shorter
than 100 characters after the whole extraction chain is rejected with
the 422 "cannot parse page structure" error; any longer content yields
a normal response and never that error. -/
theorem sync_short_content_422 (env : StreamEnv) (url : String) (p : String × Bool)
    (hf : fetch_html env.fetch false = .ok p) :
    (((multi_strategy_extract env.extract).2.isEmpty
        || decide ((multi_strategy_extract env.extract).2.length < 100)) = true →
      extract_structured env url = .error (422, parseFailDetail))
    ∧ (((multi_strategy_extract env.extract).2.isEmpty
        || decide ((multi_strategy_extract env.extract).2.length < 100)) = false →
      (∃ resp, extract_structured env url = .ok resp)
        ∧ ∀ d : String, extract_structured env url ≠ .error (422, d)) := by
  obtain ⟨html, fa⟩ := p
  constructor
  · intro hshort
    simp [extract_structured, hf, hshort]
  · intro hlong
    have hok : extract_structured env url =
        .ok { title := (multi_strategy_extract env.extract).1,
              content :=
                if env.openaiConfigured
                    && decide ((multi_strategy_extract env.extract).2.length > 200) then
                  ai_refine env.openaiConfigured env.completion
                    (multi_strategy_extract env.extract).2
                else (multi_strategy_extract env.extract).2,
              lead_image_url := none, source_url := url,
              document_type := if fa then some "archived_version" else none,
              keywords := none } := by
      simp [extract_structured, hf, hlong]
    exact ⟨⟨_, hok⟩, fun d hcontra => by rw [hok] at hcontra; cases hcontra⟩

/-- Request oracle: a clean 1500-character static fetch, but every
extraction strategy raises and the page text is empty. -/
def c9_env : StreamEnv :=
  { fetch :=
      { staticResp := .ok { status_code := 200, text := static_html_1500 },
        render1 := .exn "pw1", render2 := .exn "pw2",
        archive0 := dead_archive, archive1 := dead_archive, archive2 := dead_archive },
    extract :=
      { trafExtract := .exn "t", trafTitle := .exn "tm", newspaper := .exn "n",
        readability := .exn "r", soup := .exn "s", pageText := "" },
    openaiConfigured := false, completion := .exn "no client" }

/-- Witness for C9: with an empty extracted content the synchronous
handler answers 422 with the fixed detail. -/
theorem sync_short_content_422_witness :
    extract_structured c9_env "http://example.com/post" = .error (422, parseFailDetail) :=
  (sync_short_content_422 c9_env "http://example.com/post" (static_html_1500, false)
    (by rfl)).1 (by rfl)

end Crawler
